import Mathlib

/-!
Verification of the request router and provider waterfall of the
Neural-home-infrastructure repository (src/orchestrator/main.py,
src/orchestrator/rate_limiter.py), via a shallow embedding in Lean.

External library calls (SHA-256, JSON parsing, the judge model, the upstream
providers, Redis) are modelled as explicit parameters or oracles; everything
else is translated clause by clause from the Python source.
-/

/-! ## String helpers (Python `in`, `str.lower`) -/

/-- Whether `pat` is an initial segment of `s` (character lists). -/
def leadsWith : List Char → List Char → Bool
  | [], _ => true
  | _ :: _, [] => false
  | a :: as, b :: bs => a == b && leadsWith as bs

/-- Whether `pat` occurs as a contiguous substring of `s`; models Python
`pat in s` on strings. -/
def subOccur (pat : List Char) : List Char → Bool
  | [] => pat.isEmpty
  | c :: rest => leadsWith pat (c :: rest) || subOccur pat rest

/-- `pat in s` on `String`. -/
def subOccurS (pat s : String) : Bool := subOccur pat.data s.data

/-- Models Python `str.lower()` (ASCII case folding suffices here). -/
def pyLower (s : String) : String := s.map Char.toLower

/-- Models Python `str.strip()`: drop leading and trailing whitespace. -/
def pyStrip (s : String) : String :=
  ⟨((s.data.dropWhile Char.isWhitespace).reverse.dropWhile Char.isWhitespace).reverse⟩

/-! ## Key-value store model (Redis)

Keys map to string values, optionally carrying a TTL in seconds.  The maps are
association lists; the most recent binding for a key is the first one. -/

structure KvEntry where
  value : String
  ttl : Option Nat
deriving Repr, DecidableEq

structure Kvs where
  entries : List (String × KvEntry)
deriving Repr, DecidableEq

def kvGetE (kvs : Kvs) (k : String) : Option KvEntry :=
  (kvs.entries.find? (fun e => e.1 == k)).map (fun e => e.2)

/-- `r.get(k)`: the stored string, if any. -/
def kvGet (kvs : Kvs) (k : String) : Option String :=
  (kvGetE kvs k).map (fun e => e.value)

/-- `r.exists(k)`. -/
def kvExists (kvs : Kvs) (k : String) : Bool := (kvGetE kvs k).isSome

/-- Overwrite a key: the newest binding is consed on and shadows older ones
(lookup takes the first match). -/
def kvSet (kvs : Kvs) (k : String) (e : KvEntry) : Kvs :=
  ⟨(k, e) :: kvs.entries⟩

/-- `r.setex(k, secs, v)`. -/
def kvSetex (kvs : Kvs) (k : String) (secs : Nat) (v : String) : Kvs :=
  kvSet kvs k ⟨v, some secs⟩

/-- `r.incr(k)`: integer increment of a string-encoded counter; a fresh key
starts at 1 with no TTL, an existing key keeps its TTL. -/
def kvIncr (kvs : Kvs) (k : String) : Kvs :=
  match kvGetE kvs k with
  | none => kvSet kvs k ⟨"1", none⟩
  | some e => kvSet kvs k ⟨toString ((e.value.toNat?.getD 0) + 1), e.ttl⟩

/-! ## RateLimiter (src/orchestrator/rate_limiter.py)

The class wired into the pipeline by `main.py` (`from .rate_limiter import
RateLimiter`).  It is a per-day quota counter, not a token bucket. -/

/-- `RateLimiter.DEFAULT_LIMITS` (requests per day). -/
def DEFAULT_LIMITS : List (String × Nat) :=
  [("gemini", 1500), ("groq", 1000), ("qwen", 1000), ("ollama", 100000)]

/-- `RateLimiter._get_key(provider)`. -/
def rateLimiterKey (provider today : String) : String :=
  "quota:" ++ provider ++ ":" ++ today

/-- `RateLimiter.get_limit(provider)`: `DEFAULT_LIMITS.get(provider, 1000)`. -/
def get_limit (provider : String) : Nat :=
  (DEFAULT_LIMITS.lookup provider).getD 1000

/-- `RateLimiter.check_limit(provider)`: allowed while the daily counter is
below the limit; a missing counter allows.  (`int()` on the stored string is
modelled by `String.toNat?` with default 0; stored counters are numeric.) -/
def check_limit (kvs : Kvs) (today provider : String) : Bool :=
  match kvGet kvs (rateLimiterKey provider today) with
  | none => true
  | some usage => (usage.toNat?.getD 0) < get_limit provider

/-! ## Python keyword-argument binding

`main.py` line 194 calls `limiter.check_limit("global_user", cost=1,
limit_type=limit_type)`.  Binding a call against a `def` follows Python: the
positional arguments fill the leading parameters, then every keyword must name
one of the remaining parameters, otherwise the call raises `TypeError`. -/

def bindKeywords (params : List String) (posCount : Nat) (kwargs : List String) :
    Except String Unit :=
  if params.length < posCount then
    Except.error "too many positional arguments"
  else
    let remaining := params.drop posCount
    match kwargs.filter (fun k => !(remaining.contains k)) with
    | [] => Except.ok ()
    | k :: _ => Except.error ("unexpected keyword argument " ++ k)

/-- Parameter list of `RateLimiter.check_limit` (`self` excluded),
rate_limiter.py line 46. -/
def checkLimitParams : List String := ["provider"]

/-- Keyword arguments used at the call site main.py line 194. -/
def chatProxyLimiterKwargs : List String := ["cost", "limit_type"]

/-! ## Router helpers (src/orchestrator/main.py) -/

structure ProviderDesc where
  id : String
  name : String
  /-- the `type` key of the provider descriptor -/
  ptype : String
  url : String
  model : String
  key : Option String
deriving Repr, DecidableEq

/-- `get_sane_providers(gpu_ready)`, main.py lines 129-133: ids of registry
entries with no live `cooldown:<id>` key; `"ollama"` is removed (first
occurrence, as Python `list.remove`) when the GPU is not ready. -/
def get_sane_providers (kvs : Kvs) (providers : List (String × ProviderDesc))
    (gpu_ready : Bool) : List String :=
  let sane := (providers.map (fun p => p.2.id)).filter
    (fun i => !(kvExists kvs ("cooldown:" ++ i)))
  if !gpu_ready && sane.contains "ollama" then sane.erase "ollama" else sane

/-- `set_cooldown(p_id)`, main.py lines 135-137. -/
def set_cooldown (kvs : Kvs) (p_id : String) : Kvs :=
  kvSetex kvs ("cooldown:" ++ p_id) 60 "BLOCKED"

/-- `log_success(p_id)`, main.py lines 139-140. -/
def log_success (kvs : Kvs) (p_id : String) : Kvs :=
  kvIncr kvs ("stats:" ++ p_id ++ ":requests")

/-- `decide_routing(category, gpu_ready, sane_list)`, main.py lines 166-177.
`none` models the `IndexError` of `sane_list[0]` on an empty list. -/
def decide_routing (category : String) (gpu_ready : Bool)
    (sane_list : List String) : Option String :=
  if category == "CODING" then
    if gpu_ready && sane_list.contains "ollama" then some "ollama"
    else if sane_list.contains "qwen_cloud" then some "qwen_cloud"
    else sane_list.head?
  else
    if sane_list.contains "groq" then some "groq"
    else if sane_list.contains "gemini-flash" then some "gemini-flash"
    else sane_list.head?

/-- The GPU gauge value, as set by the `/metrics` middleware (main.py line
101: `1 if status and status == "VERDE" else 0`), by the startup hook (line
115) and by `chat_proxy` (lines 209-210), which all yield 1 exactly when the
stored string equals `"VERDE"`. -/
def gpuGaugeVal (kvs : Kvs) : Nat :=
  match kvGet kvs "gpu_status" with
  | none => 0
  | some s => if s != "" && s == "VERDE" then 1 else 0

/-! ## State loader (src/orchestrator/main.py lines 30-75)

`hashlib.sha256(...).hexdigest()` and `json.loads` are external library
functions, modelled as parameters `sha256hex` and `parseJson`; `parseJson`
returns `none` when `json.loads` raises.  The parsed document is reduced to
the only part the loader inspects: the optional `api_providers` mapping.
`time.sleep(1)` advances the clock by one second.  The recursion at line 55
(`return load_state_safe()`) has no retry counter; the `fuel` argument is the
interpreter recursion budget, and exhausting it models the `RecursionError`
that the bare `except` at line 72 swallows, preserving the registry. -/

structure StateDoc where
  api_providers : Option (List (String × ProviderDesc))

structure LoaderEnv where
  sha256hex : String → String
  parseJson : String → Option StateDoc
  /-- contents of `infrastructure/state.json.checksum` -/
  checksumFile : String
  /-- contents of `infrastructure/state.json` -/
  stateFile : String
  /-- `os.getenv("DASHSCOPE_API_KEY")` -/
  dashscopeKey : Option String
  /-- `os.getenv("GROQ_API_KEY")` -/
  groqApiKey : Option String

structure LoaderState where
  /-- the global `PROVIDERS` registry -/
  providers : List (String × ProviderDesc)
  /-- the global `LAST_STATE_LOAD` -/
  lastStateLoad : Nat
  /-- `time.time()` -/
  now : Nat
deriving Repr

/-- Enrichment of `api_providers` with environment keys, main.py lines 62-65. -/
def enrichProviders (env : LoaderEnv) (ps : List (String × ProviderDesc)) :
    List (String × ProviderDesc) :=
  ps.map (fun kv =>
    if kv.1 == "qwen_cloud" then (kv.1, { kv.2 with key := env.dashscopeKey })
    else if kv.1 == "groq" then (kv.1, { kv.2 with key := env.groqApiKey })
    else kv)

/-- `load_state_safe()`.  Returns the final state together with the number of
read-and-validate attempts this refresh performed. -/
def load_state_safe (env : LoaderEnv) : Nat → LoaderState → LoaderState × Nat
  | 0, s => (s, 0)
  | fuel + 1, s =>
    if s.now - s.lastStateLoad < 60 && !s.providers.isEmpty then (s, 0)
    else
      let expected := pyStrip env.checksumFile
      let content := env.stateFile
      let real := env.sha256hex content
      if real != expected then
        let r := load_state_safe env fuel { s with now := s.now + 1 }
        (r.1, r.2 + 1)
      else
        match env.parseJson content with
        | none => (s, 1)
        | some doc =>
          match doc.api_providers with
          | none => (s, 1)
          | some ps =>
            ({ s with providers := enrichProviders env ps, lastStateLoad := s.now }, 1)

/-! ## Messages and the language directive (main.py lines 218-220) -/

structure Message where
  role : String
  content : String
deriving Repr, DecidableEq

structure RequestBody where
  messages : List Message
  stream : Bool
  model : String
deriving Repr

/-- The `lang_cmd` string of main.py line 219. -/
def lang_cmd (lang : String) : String :=
  "\n\n(SYSTEM OVERRIDE: User speaks " ++ lang ++ ". Respond ONLY in " ++ lang ++
    ". Ignore previous instructions to use English.)"

/-- `full_messages[-1]["content"] += s` (main.py line 220): appends to the
content of the last message of the list, whatever its role; `none` models the
`IndexError` on an empty list. -/
def appendToLast : List Message → String → Option (List Message)
  | [], _ => none
  | [m], s => some [⟨m.role, m.content ++ s⟩]
  | m :: m2 :: rest, s => (appendToLast (m2 :: rest) s).map (fun t => m :: t)

/-! ## Streaming adapters (main.py lines 234-241 and 249-256)

An upstream chunk of the openai-compatible dialect carries a `model` field and
the rest of its payload opaquely; the google dialect only uses the text.  The
two `generate()` closures are embedded as `consumeGoogle` / `consumeOpenai`:
they run only when the already-returned `StreamingResponse` is consumed.  A
`chunkFail` marks the upstream iterator raising after the given chunks; the
error then escapes the generator (second component), after the frames already
yielded. -/

inductive SSEFrame where
  /-- a `data: <json>` line whose json has the given `model` field -/
  | data (model : String) (body : String)
  /-- the terminal `data: [DONE]` line -/
  | done
deriving Repr, DecidableEq

def SSEFrame.isDone : SSEFrame → Bool
  | .done => true
  | .data _ _ => false

/-- Whether the frame is a data frame carrying the given model id. -/
def SSEFrame.hasModel (m : String) : SSEFrame → Bool
  | .done => false
  | .data m' _ => m' == m

structure OChunk where
  model : String
  rest : String
deriving Repr, DecidableEq

/-- The google-branch `generate()` (lines 235-239): one frame per chunk, built
with `model = req_model` and the chunk text, then `data: [DONE]`. -/
def consumeGoogle (reqModel : String) :
    List String → Option String → List SSEFrame × Option String
  | [], none => ([SSEFrame.done], none)
  | [], some e => ([], some e)
  | t :: ts, f =>
    let r := consumeGoogle reqModel ts f
    (SSEFrame.data reqModel t :: r.1, r.2)

/-- The openai-branch `generate()` (lines 250-254): each chunk is re-emitted
with its `model` overwritten by `req_model`, then `data: [DONE]`. -/
def consumeOpenai (reqModel : String) :
    List OChunk → Option String → List SSEFrame × Option String
  | [], none => ([SSEFrame.done], none)
  | [], some e => ([], some e)
  | c :: cs, f =>
    let r := consumeOpenai reqModel cs f
    (SSEFrame.data reqModel c.rest :: r.1, r.2)

/-! ## Waterfall executor (main.py lines 222-267)

Each provider attempt consults an oracle for what the upstream does.  For the
openai dialect the adapter call itself (`client.chat.completions.create`) runs
eagerly inside the `try`, so `raises` is caught by the `except`; an erroring
stream iterator is carried in `chunkFail` and only surfaces on consumption.
In the google streaming branch even the `generate_content_stream` call sits
inside the lazily-run `generate()` closure, so a `raises` there becomes a
stream that fails before its first frame and is never caught by the waterfall.
-/

structure UpstreamData where
  /-- the model id the upstream reports (openai dialect) -/
  model : String
  /-- buffered response text / payload -/
  text : String
  /-- streaming chunks -/
  chunks : List OChunk
  /-- `some e` when the chunk iterator raises `e` after the listed chunks -/
  chunkFail : Option String

inductive AttemptResult where
  /-- the adapter call raises with the given error text -/
  | raises (msg : String)
  | succeeds (up : UpstreamData)

inductive ClientResponse where
  /-- a buffered JSON response whose `model` field is `model` -/
  | buffered (model : String) (content : String)
  /-- an unconsumed google-dialect stream: `callFail` models
  `generate_content_stream` itself raising inside the closure -/
  | streamingGoogle (reqModel : String) (callFail : Option String)
      (chunks : List String) (chunkFail : Option String)
  /-- an unconsumed openai-dialect stream -/
  | streamingOpenai (reqModel : String) (chunks : List OChunk)
      (chunkFail : Option String)

/-- One record per provider actually attempted: its id and the last-message
content it was handed (`full_messages[-1]["content"]`, which the google branch
uses as `prompt_final` and the openai branch forwards inside the full list). -/
structure AttemptRecord where
  pid : String
  forwardedLast : String
deriving Repr, DecidableEq

/-- The condition of main.py line 264 deciding a cooldown. -/
def quotaErrorCond (msg : String) : Bool :=
  subOccurS "429" msg || subOccurS "quota" (pyLower msg)

structure PipelineEnv where
  kvs : Kvs
  /-- today, for the daily-quota keys -/
  today : String
  /-- the in-process `PROVIDERS` registry -/
  providers : List (String × ProviderDesc)
  /-- the judge verdict `cat` (external model, given) -/
  cat : String
  /-- the judge verdict `lang` (external model, given) -/
  lang : String
  /-- what each upstream provider does when its adapter is invoked -/
  attempt : String → AttemptResult
  /-- the process-wide `current_mode` -/
  mode : String
  /-- the process-wide `manual_target_id` (`none` is Python `None`) -/
  manualTarget : Option String

/-- The `for p_id in attempts` loop of main.py lines 225-267.  An attempt list
entry `none` is Python `None` (possible in MANUAL mode), skipped because
`PROVIDERS.get(None)` is falsy.  Returns the key-value store after the loop,
the trace of providers actually attempted, and the response of the first
successful attempt (`none` when the loop exhausts and line 267 raises 503). -/
def waterfall (env : PipelineEnv) (reqModel : String) (is_stream : Bool)
    (msgs : List Message) :
    List (Option String) → Kvs → List AttemptRecord →
      Kvs × List AttemptRecord × Option ClientResponse
  | [], kvs, trace => (kvs, trace, none)
  | none :: rest, kvs, trace => waterfall env reqModel is_stream msgs rest kvs trace
  | some p_id :: rest, kvs, trace =>
    match env.providers.lookup p_id with
    | none => waterfall env reqModel is_stream msgs rest kvs trace
    | some p =>
      let lastContent := ((msgs.getLast?).map Message.content).getD ""
      let trace' := trace ++ [⟨p_id, lastContent⟩]
      if p.ptype == "google" then
        if is_stream then
          (log_success kvs p_id, trace',
            some (match env.attempt p_id with
              | .raises msg => .streamingGoogle reqModel (some msg) [] none
              | .succeeds up =>
                  .streamingGoogle reqModel none (up.chunks.map OChunk.rest) up.chunkFail))
        else
          match env.attempt p_id with
          | .raises msg =>
            let kvs' := if quotaErrorCond msg then set_cooldown kvs p_id else kvs
            waterfall env reqModel is_stream msgs rest kvs' trace'
          | .succeeds up =>
            (log_success kvs p_id, trace', some (.buffered reqModel up.text))
      else
        match env.attempt p_id with
        | .raises msg =>
          let kvs' := if quotaErrorCond msg then set_cooldown kvs p_id else kvs
          waterfall env reqModel is_stream msgs rest kvs' trace'
        | .succeeds up =>
          if is_stream then
            (log_success kvs p_id, trace',
              some (.streamingOpenai reqModel up.chunks up.chunkFail))
          else
            (log_success kvs p_id, trace', some (.buffered reqModel up.text))

/-! ## The HTTP handler (main.py lines 180-267) -/

inductive HandlerOutcome where
  /-- a response produced by the handler itself (status 200) -/
  | success (resp : ClientResponse)
  /-- a raised `HTTPException`, rendered with its status by the framework -/
  | httpError (status : Nat) (detail : String)
  /-- an exception escaping the handler; the framework answers 500 -/
  | uncaught (msg : String)

/-- The HTTP status the client sees for a handler outcome. -/
def frameworkStatus : HandlerOutcome → Nat
  | .success _ => 200
  | .httpError s _ => s
  | .uncaught _ => 500

/-- main.py lines 197-267: the part of `chat_proxy` after the rate-limit
check.  The judge call (`analyze_request`) is an external model whose verdict
is `env.cat`/`env.lang`; `load_state_safe` runs against the loader state and
the registry used below is the resulting `env.providers`. -/
def chatPipeline (env : PipelineEnv) (body : RequestBody) :
    HandlerOutcome × Kvs × List AttemptRecord :=
  let gpu_on := kvGet env.kvs "gpu_status" == some "VERDE"
  let sane_list := get_sane_providers env.kvs env.providers gpu_on
  let targetOrErr : Except String (Option String) :=
    if env.mode == "MANUAL" then Except.ok env.manualTarget
    else
      match decide_routing env.cat gpu_on sane_list with
      | some t => Except.ok (some t)
      | none => Except.error "IndexError: list index out of range"
  match targetOrErr with
  | Except.error e => (HandlerOutcome.uncaught e, env.kvs, [])
  | Except.ok target =>
    match appendToLast body.messages (lang_cmd env.lang) with
    | none => (HandlerOutcome.uncaught "IndexError: list index out of range", env.kvs, [])
    | some msgs =>
      let attempts := target :: (sane_list.filter (fun i => some i != target)).map some
      let r := waterfall env body.model body.stream msgs attempts env.kvs []
      ((match r.2.2 with
        | some resp => HandlerOutcome.success resp
        | none => HandlerOutcome.httpError 503 "Tutti i provider falliti."),
       r.1, r.2.1)

/-- `chat_proxy` (main.py lines 180-267).  The rate-limit section (lines
187-195) computes `limit_type` and then calls
`limiter.check_limit("global_user", cost=1, limit_type=limit_type)`; binding
that call against `RateLimiter.check_limit(self, provider)` fails, so the call
raises `TypeError` before any further step.  The `Except.ok` branch models the
behaviour the call site expects and is unreachable as the source stands. -/
def chat_proxy (env : PipelineEnv) (body : RequestBody) :
    HandlerOutcome × Kvs × List AttemptRecord :=
  let lmodel := pyLower body.model
  let limit_type :=
    if subOccurS "gpt-4" lmodel || subOccurS "claude" lmodel then "expensive" else "cheap"
  match bindKeywords checkLimitParams 1 chatProxyLimiterKwargs with
  | Except.error e =>
    (HandlerOutcome.uncaught ("TypeError: check_limit() got an " ++ e), env.kvs, [])
  | Except.ok _ =>
    if check_limit env.kvs env.today "global_user" then chatPipeline env body
    else (HandlerOutcome.httpError 429 "Rate limit exceeded. Slow down.", env.kvs, [])

/-! ## Shared concrete samples and helper lemmas -/

def emptyKvs : Kvs := ⟨[]⟩

/-- A registry descriptor of the given id and wire type. -/
def mkDesc (i ty : String) : ProviderDesc := ⟨i, i, ty, "http://up", "m1", none⟩

lemma kvGetE_set_self (kvs : Kvs) (k : String) (e : KvEntry) :
    kvGetE (kvSet kvs k e) k = some e := by
  simp [kvGetE, kvSet]

lemma kvGetE_set_other (kvs : Kvs) (k k' : String) (e : KvEntry) (h : k' ≠ k) :
    kvGetE (kvSet kvs k e) k' = kvGetE kvs k' := by
  have hb : (k == k') = false := beq_eq_false_iff_ne.mpr (fun hh => h hh.symm)
  simp [kvGetE, kvSet, List.find?_cons, hb]

lemma kvIncr_get_other (kvs : Kvs) (k k' : String) (h : k' ≠ k) :
    kvGetE (kvIncr kvs k) k' = kvGetE kvs k' := by
  unfold kvIncr
  cases kvGetE kvs k with
  | none => exact kvGetE_set_other kvs k k' _ h
  | some e => exact kvGetE_set_other kvs k k' _ h

/-! ## Claim theorems -/

/-- C1: the spec says the limiter wired into POST /v1/chat/completions is a
token bucket consuming `cost` from a per-class bucket.  In the source the
wired class is the daily-quota `RateLimiter` of rate_limiter.py, whose
`check_limit(self, provider)` accepts no `cost` or `limit_type` parameter:
binding the call of main.py line 194 raises `TypeError`, so the pipeline
performs no token-bucket check at all — `chat_proxy` dies before any
rate decision, for any request (here: a plain request for model qwen-max). -/
theorem C1_wired_limiter_not_token_bucket :
    bindKeywords checkLimitParams 1 chatProxyLimiterKwargs =
      Except.error "unexpected keyword argument cost" ∧
    (chat_proxy
        ⟨emptyKvs, "2026-10-12", [("groq", mkDesc "groq" "openai")], "SIMPLE",
          "Italian", fun _ => AttemptResult.raises "down", "AUTO", none⟩
        ⟨[⟨"user", "ciao"⟩], false, "qwen-max"⟩).1 =
      HandlerOutcome.uncaught
        "TypeError: check_limit() got an unexpected keyword argument cost" :=
  ⟨rfl, rfl⟩

/-- C2: the spec says per-request errors are caught and classified so the
client sees exactly 200, 429 or 503.  In the source the rate-limit call at
main.py line 194 raises `TypeError` (signature mismatch with
`RateLimiter.check_limit`) outside any try/except, so every request to
POST /v1/chat/completions escapes the handler and the framework answers 500 —
a status the claim excludes. -/
theorem C2_every_request_yields_500 (env : PipelineEnv) (body : RequestBody) :
    frameworkStatus (chat_proxy env body).1 = 500 := rfl

/-- C5: `decide_routing` is a pure function of `(category, gpu_ready, sane)`;
on non-empty `sane`, for CODING it prefers ollama (when the GPU is ready and
ollama is sane), then qwen_cloud, then the first sane id; for SIMPLE it
prefers groq, then gemini-flash, then the first sane id. -/
theorem C5_decide_routing_spec (category : String) (gpu_ready : Bool)
    (sane_list : List String) (h : sane_list ≠ []) :
    (category = "CODING" →
      decide_routing category gpu_ready sane_list =
        some (if gpu_ready && sane_list.contains "ollama" then "ollama"
              else if sane_list.contains "qwen_cloud" then "qwen_cloud"
              else sane_list.headI)) ∧
    (category = "SIMPLE" →
      decide_routing category gpu_ready sane_list =
        some (if sane_list.contains "groq" then "groq"
              else if sane_list.contains "gemini-flash" then "gemini-flash"
              else sane_list.headI)) := by
  obtain ⟨a, t, rfl⟩ : ∃ a t, sane_list = a :: t := by
    cases sane_list with
    | nil => exact absurd rfl h
    | cons a t => exact ⟨a, t, rfl⟩
  constructor <;> intro hc <;> subst hc <;>
    simp only [decide_routing] <;> split_ifs <;> simp_all

/-- Witness for C5 at a concrete input: CODING with a ready GPU and sane
`["ollama", "groq"]` routes to ollama. -/
theorem C5_decide_routing_witness :
    (["ollama", "groq"] : List String) ≠ [] ∧
    (("CODING" : String) = "CODING" →
      decide_routing "CODING" true ["ollama", "groq"] =
        some (if true && (["ollama", "groq"] : List String).contains "ollama" then "ollama"
              else if (["ollama", "groq"] : List String).contains "qwen_cloud" then "qwen_cloud"
              else (["ollama", "groq"] : List String).headI)) :=
  ⟨by decide,
    (C5_decide_routing_spec "CODING" true ["ollama", "groq"] (by decide)).1⟩

/-- C6 (amended): the green literal the source consults is `"VERDE"`, not
`"GREEN"`.  Wherever the `gpu_status` flag is read, the gauge is 1 exactly
when the stored value is `"VERDE"`, and (for a registry whose ids are
distinct) the local-GPU provider `ollama` is routing-eligible exactly when the
flag is `"VERDE"`, ollama is registered, and it is not cooling down. -/
theorem C6_gpu_flag_verde (kvs : Kvs) (providers : List (String × ProviderDesc))
    (hn : (providers.map (fun p => p.2.id)).Nodup) :
    (gpuGaugeVal kvs = 1 ↔ kvGet kvs "gpu_status" = some "VERDE") ∧
    ("ollama" ∈ get_sane_providers kvs providers
        (kvGet kvs "gpu_status" == some "VERDE") ↔
      (kvGet kvs "gpu_status" = some "VERDE" ∧
        "ollama" ∈ providers.map (fun p => p.2.id) ∧
        kvExists kvs ("cooldown:" ++ "ollama") = false)) := by
  constructor
  · unfold gpuGaugeVal
    cases hg : kvGet kvs "gpu_status" with
    | none => simp
    | some s =>
      by_cases hs : s = "VERDE"
      · subst hs; simp
      · simp [hs, beq_eq_false_iff_ne.mpr hs]
  · unfold get_sane_providers
    have hsane :
        ("ollama" ∈ (providers.map (fun p => p.2.id)).filter
            (fun i => !(kvExists kvs ("cooldown:" ++ i)))) ↔
          ("ollama" ∈ providers.map (fun p => p.2.id) ∧
            kvExists kvs ("cooldown:" ++ "ollama") = false) := by
      simp [List.mem_filter]
    by_cases hv : kvGet kvs "gpu_status" = some "VERDE"
    · simp only [hv, beq_self_eq_true, Bool.not_true, Bool.false_and, if_neg]
      simp only [hv, true_and]
      exact hsane
    · have hb : (kvGet kvs "gpu_status" == some "VERDE") = false := by
        simpa using hv
      have hnd : ((providers.map (fun p => p.2.id)).filter
          (fun i => !(kvExists kvs ("cooldown:" ++ i)))).Nodup :=
        List.Nodup.filter _ hn
      constructor
      · intro hmem
        exfalso
        by_cases hc : ((providers.map (fun p => p.2.id)).filter
            (fun i => !(kvExists kvs ("cooldown:" ++ i)))).contains "ollama" = true
        · rw [hb] at hmem
          simp only [Bool.not_false, Bool.true_and, hc, if_pos] at hmem
          exact ((List.Nodup.mem_erase_iff hnd).mp hmem).1 rfl
        · rw [hb] at hmem
          simp only [Bool.not_false, Bool.true_and, hc, if_neg] at hmem
          simp only [Bool.not_eq_true] at hc
          have : "ollama" ∈ (providers.map (fun p => p.2.id)).filter
              (fun i => !(kvExists kvs ("cooldown:" ++ i))) := by
            simpa using hmem
          rw [← List.elem_iff] at this
          exact absurd this (by simp [List.contains] at hc ⊢; exact hc)
      · intro hrhs
        exact absurd hrhs.1 hv

/-- Witness for C6 at a concrete store: with `gpu_status = "VERDE"` and a
registry containing ollama without a cooldown key, the gauge reads 1 and
ollama is routing-eligible. -/
theorem C6_gpu_flag_verde_witness :
    ([("ollama", mkDesc "ollama" "openai")].map
        (fun p => p.2.id)).Nodup ∧
    ((gpuGaugeVal ⟨[("gpu_status", ⟨"VERDE", none⟩)]⟩ = 1 ↔
        kvGet ⟨[("gpu_status", ⟨"VERDE", none⟩)]⟩ "gpu_status" = some "VERDE") ∧
      ("ollama" ∈ get_sane_providers ⟨[("gpu_status", ⟨"VERDE", none⟩)]⟩
          [("ollama", mkDesc "ollama" "openai")]
          (kvGet ⟨[("gpu_status", ⟨"VERDE", none⟩)]⟩ "gpu_status" == some "VERDE") ↔
        (kvGet ⟨[("gpu_status", ⟨"VERDE", none⟩)]⟩ "gpu_status" = some "VERDE" ∧
          "ollama" ∈ [("ollama", mkDesc "ollama" "openai")].map (fun p => p.2.id) ∧
          kvExists ⟨[("gpu_status", ⟨"VERDE", none⟩)]⟩ ("cooldown:" ++ "ollama") = false))) :=
  ⟨by decide,
    C6_gpu_flag_verde ⟨[("gpu_status", ⟨"VERDE", none⟩)]⟩
      [("ollama", mkDesc "ollama" "openai")] (by decide)⟩

/-- Counterexample for C6 as stated: with the flag holding the string
`"GREEN"` — which the claim says means eligible, gauge 1 — the source compares
against `"VERDE"`, so the gauge reads 0 and the cooldown-free, registered
ollama provider is excluded from the sane list. -/
theorem C6_green_literal_counterexample :
    gpuGaugeVal ⟨[("gpu_status", ⟨"GREEN", none⟩)]⟩ = 0 ∧
    "ollama" ∉ get_sane_providers ⟨[("gpu_status", ⟨"GREEN", none⟩)]⟩
      [("ollama", mkDesc "ollama" "openai")]
      (kvGet ⟨[("gpu_status", ⟨"GREEN", none⟩)]⟩ "gpu_status" == some "VERDE") := by
  constructor
  · rfl
  · decide

/-! ### State-loader lemmas -/

lemma load_mismatch_preserves (env : LoaderEnv)
    (h : env.sha256hex env.stateFile ≠ pyStrip env.checksumFile) (fuel : Nat) :
    ∀ s, (load_state_safe env fuel s).1.providers = s.providers ∧
      (load_state_safe env fuel s).1.lastStateLoad = s.lastStateLoad := by
  induction fuel with
  | zero => intro s; exact ⟨rfl, rfl⟩
  | succ n ih =>
    intro s
    have hb : (env.sha256hex env.stateFile != pyStrip env.checksumFile) = true :=
      bne_iff_ne.mpr h
    by_cases hg : (decide (s.now - s.lastStateLoad < 60) && !s.providers.isEmpty) = true
    · simp [load_state_safe, hg]
    · rw [Bool.not_eq_true] at hg
      simp only [load_state_safe, hg, hb, Bool.false_eq_true, if_false, if_true]
      exact ih _

lemma load_mismatch_cold_attempts (env : LoaderEnv)
    (h : env.sha256hex env.stateFile ≠ pyStrip env.checksumFile) (fuel : Nat) :
    ∀ s, s.providers = [] → (load_state_safe env fuel s).2 = fuel := by
  induction fuel with
  | zero => intro s _; rfl
  | succ n ih =>
    intro s hs
    have hg : (decide (s.now - s.lastStateLoad < 60) && !s.providers.isEmpty) = false := by
      simp [hs]
    have hb : (env.sha256hex env.stateFile != pyStrip env.checksumFile) = true :=
      bne_iff_ne.mpr h
    simp only [load_state_safe, hg, hb, Bool.false_eq_true, if_false, if_true]
    rw [ih _ (by simp [hs])]

/-- C3 (amended): under a checksum mismatch a refresh never mutates the
registry; under a matching checksum it replaces the registry with the enriched
`api_providers` entries provided the document parses and contains
`api_providers` (and the 60-second debounce does not skip the refresh) —
otherwise the registry is likewise unchanged. -/
theorem C3_checksum_gate (env : LoaderEnv) (fuel : Nat) (s : LoaderState) :
    (env.sha256hex env.stateFile ≠ pyStrip env.checksumFile →
      (load_state_safe env fuel s).1.providers = s.providers) ∧
    (∀ doc ps,
      env.sha256hex env.stateFile = pyStrip env.checksumFile →
      env.parseJson env.stateFile = some doc →
      doc.api_providers = some ps →
      (decide (s.now - s.lastStateLoad < 60) && !s.providers.isEmpty) = false →
      1 ≤ fuel →
      (load_state_safe env fuel s).1.providers = enrichProviders env ps ∧
      (load_state_safe env fuel s).1.lastStateLoad = s.now) ∧
    (env.sha256hex env.stateFile = pyStrip env.checksumFile →
      (env.parseJson env.stateFile = none ∨
        ∃ doc, env.parseJson env.stateFile = some doc ∧ doc.api_providers = none) →
      (load_state_safe env fuel s).1.providers = s.providers) := by
  refine ⟨fun h => (load_mismatch_preserves env h fuel s).1, ?_, ?_⟩
  · intro doc ps heq hparse hap hg hfuel
    cases fuel with
    | zero => exact absurd hfuel (by decide)
    | succ n =>
      have hb : (env.sha256hex env.stateFile != pyStrip env.checksumFile) = false := by
        simp [heq]
      simp [load_state_safe, hg, hb, hparse, hap]
  · intro heq hbad
    have hb : (env.sha256hex env.stateFile != pyStrip env.checksumFile) = false := by
      simp [heq]
    cases fuel with
    | zero => rfl
    | succ n =>
      by_cases hg : (decide (s.now - s.lastStateLoad < 60) && !s.providers.isEmpty) = true
      · simp [load_state_safe, hg]
      · rw [Bool.not_eq_true] at hg
        rcases hbad with hnone | ⟨doc, hdoc, hap⟩
        · simp [load_state_safe, hg, hb, hnone]
        · simp [load_state_safe, hg, hb, hdoc, hap]

/-- A loader environment whose checksum file matches the digest and whose
document carries one `api_providers` entry (the digest function and
`json.loads` are instantiated consistently on the one input used). -/
def matchEnv : LoaderEnv :=
  ⟨fun _ => "e3b0", fun _ => some ⟨some [("groq", mkDesc "groq" "openai")]⟩,
    "e3b0", "doc-bytes", some "DASH-KEY", some "GROQ-KEY"⟩

/-- Witness for C3 at a concrete input: with a matching checksum and a
document holding an `api_providers` entry, one refresh replaces the registry
with the enriched entries. -/
theorem C3_checksum_gate_witness :
    matchEnv.sha256hex matchEnv.stateFile = pyStrip matchEnv.checksumFile ∧
    (load_state_safe matchEnv 3 ⟨[], 0, 0⟩).1.providers =
      enrichProviders matchEnv [("groq", mkDesc "groq" "openai")] :=
  ⟨by decide,
    ((C3_checksum_gate matchEnv 3 ⟨[], 0, 0⟩).2.1
        ⟨some [("groq", mkDesc "groq" "openai")]⟩
        [("groq", mkDesc "groq" "openai")]
        (by decide) rfl rfl (by decide) (by decide)).1⟩

/-- A loader environment where the checksum matches but the document is the
empty JSON object (no `api_providers` key): `parseJson` models `json.loads`
succeeding with a dict lacking that key. -/
def noApEnv : LoaderEnv :=
  ⟨fun _ => "d41d", fun c => if c == "\x7b\x7d" then some ⟨none⟩ else none,
    "d41d", "\x7b\x7d", none, none⟩

/-- Counterexample for C3 as stated: a pair whose checksum equals the digest
for which the refresh nevertheless leaves the registry (and the load
timestamp) untouched, because the parsed document has no `api_providers`
entry — the claim asserts every matching pair replaces the registry. -/
theorem C3_checksum_gate_counterexample :
    noApEnv.sha256hex noApEnv.stateFile = pyStrip noApEnv.checksumFile ∧
    (load_state_safe noApEnv 1000 ⟨[], 0, 0⟩).1.providers = [] ∧
    (load_state_safe noApEnv 1000 ⟨[], 0, 0⟩).1.lastStateLoad = 0 :=
  ⟨by decide, rfl, rfl⟩

/-- A loader environment whose checksum file never matches the digest
(simulating a persistently corrupt checksum). -/
def mismatchEnv : LoaderEnv :=
  ⟨fun _ => "aaaa", fun _ => none, "bbbb", "state-bytes", none, none⟩

/-- C4: the spec says a mismatching refresh sleeps 1 s and retries at most
once, then aborts.  The source instead re-enters `load_state_safe` with no
retry counter: on a cold start with a persistently mismatched checksum the
refresh performs as many read-and-validate attempts as the interpreter
recursion budget allows (here 1000, Python's default limit) — not 2 — before
the swallowed `RecursionError` finally aborts it with the registry intact. -/
theorem C4_mismatch_retry_unbounded :
    (load_state_safe mismatchEnv 1000 ⟨[], 0, 0⟩).2 = 1000 ∧
    (load_state_safe mismatchEnv 1000 ⟨[], 0, 0⟩).1.providers = [] :=
  ⟨load_mismatch_cold_attempts mismatchEnv (by decide) 1000 ⟨[], 0, 0⟩ rfl,
    (load_mismatch_preserves mismatchEnv (by decide) 1000 ⟨[], 0, 0⟩).1⟩

/-! ### Streaming lemmas -/

lemma consumeGoogle_ok (m : String) (ts : List String) :
    consumeGoogle m ts none =
      (ts.map (fun t => SSEFrame.data m t) ++ [SSEFrame.done], none) := by
  induction ts with
  | nil => rfl
  | cons t ts ih => simp [consumeGoogle, ih]

lemma consumeOpenai_ok (m : String) (cs : List OChunk) :
    consumeOpenai m cs none =
      (cs.map (fun c => SSEFrame.data m c.rest) ++ [SSEFrame.done], none) := by
  induction cs with
  | nil => rfl
  | cons c cs ih => simp [consumeOpenai, ih]

/-- C8: for a streaming request on either adapter kind whose upstream yields
N chunks (and whose iterator then terminates normally), the client receives
exactly N data frames — every one carrying the originally requested model
id — followed by exactly one terminal DONE frame, and no error escapes the
generator. -/
theorem C8_streaming_integrity (m : String) (ts : List String) (cs : List OChunk) :
    ((consumeGoogle m ts none).2 = none ∧
     (consumeGoogle m ts none).1.length = ts.length + 1 ∧
     (consumeGoogle m ts none).1.countP SSEFrame.isDone = 1 ∧
     (consumeGoogle m ts none).1.getLast? = some SSEFrame.done ∧
     (consumeGoogle m ts none).1.all
       (fun f => f.isDone || f.hasModel m) = true) ∧
    ((consumeOpenai m cs none).2 = none ∧
     (consumeOpenai m cs none).1.length = cs.length + 1 ∧
     (consumeOpenai m cs none).1.countP SSEFrame.isDone = 1 ∧
     (consumeOpenai m cs none).1.getLast? = some SSEFrame.done ∧
     (consumeOpenai m cs none).1.all
       (fun f => f.isDone || f.hasModel m) = true) := by
  rw [consumeGoogle_ok, consumeOpenai_ok]
  refine ⟨⟨rfl, by simp, ?_, ?_, ?_⟩, ⟨rfl, by simp, ?_, ?_, ?_⟩⟩ <;>
    simp [List.countP_append, List.countP_map, List.all_append, List.all_map,
      Function.comp, SSEFrame.isDone, SSEFrame.hasModel, List.countP_cons,
      List.getLast?_concat, List.countP_eq_zero]

/-! ### Language-directive lemmas -/

lemma appendToLast_concat (pre : List Message) (m : Message) (s : String) :
    appendToLast (pre ++ [m]) s = some (pre ++ [⟨m.role, m.content ++ s⟩]) := by
  induction pre with
  | nil => rfl
  | cons p pre ih =>
    cases pre with
    | nil => rfl
    | cons q pre' =>
      rw [List.cons_append,
        show appendToLast (p :: ((q :: pre') ++ [m])) s =
          (appendToLast ((q :: pre') ++ [m]) s).map (fun t => p :: t) from rfl,
        ih]
      rfl

lemma waterfall_trace_forwarded (env : PipelineEnv) (rm : String) (st : Bool)
    (msgs : List Message) :
    ∀ (attempts : List (Option String)) (kvs : Kvs) (trace : List AttemptRecord),
      trace.all (fun e => e.forwardedLast ==
        ((msgs.getLast?).map Message.content).getD "") = true →
      (waterfall env rm st msgs attempts kvs trace).2.1.all
        (fun e => e.forwardedLast ==
          ((msgs.getLast?).map Message.content).getD "") = true := by
  intro attempts
  induction attempts with
  | nil => intro kvs trace h; exact h
  | cons a rest ih =>
    intro kvs trace h
    cases a with
    | none => exact ih kvs trace h
    | some p_id =>
      cases hp : env.providers.lookup p_id with
      | none => simp only [waterfall, hp]; exact ih kvs trace h
      | some p =>
        have htr : (trace ++
            [({ pid := p_id,
                forwardedLast := ((msgs.getLast?).map Message.content).getD "" } :
              AttemptRecord)]).all
            (fun e => e.forwardedLast ==
              ((msgs.getLast?).map Message.content).getD "") = true := by
          rw [List.all_append, h]
          simp
        by_cases hG : (p.ptype == "google") = true <;>
          cases ha : env.attempt p_id <;>
          by_cases hs : st = true <;>
          simp only [Bool.not_eq_true] at hs hG <;>
          simp only [waterfall, hp, hG, ha, hs, if_true, if_false,
            Bool.false_eq_true] <;>
          first
            | exact htr
            | (simp only [hs] at ih; exact ih _ _ htr)

/-- C7 (amended): before any adapter is called the executor appends the
language-override directive exactly once — to the content of the *last
message of the list, whatever its role* — and every provider the waterfall
subsequently tries is handed that same mutated array, whose last-message
content is the original content followed by the directive. -/
theorem C7_language_directive (env : PipelineEnv) (body : RequestBody)
    (pre : List Message) (m : Message) (hmsgs : body.messages = pre ++ [m]) :
    appendToLast body.messages (lang_cmd env.lang) =
      some (pre ++ [⟨m.role, m.content ++ lang_cmd env.lang⟩]) ∧
    (chatPipeline env body).2.2.all
      (fun e => e.forwardedLast == m.content ++ lang_cmd env.lang) = true := by
  have h1 : appendToLast body.messages (lang_cmd env.lang) =
      some (pre ++ [⟨m.role, m.content ++ lang_cmd env.lang⟩]) := by
    rw [hmsgs]; exact appendToLast_concat pre m _
  refine ⟨h1, ?_⟩
  have hall : ∀ (attempts : List (Option String)) (kvs : Kvs),
      (waterfall env body.model body.stream
        (pre ++ [⟨m.role, m.content ++ lang_cmd env.lang⟩]) attempts kvs []).2.1.all
        (fun e => e.forwardedLast == m.content ++ lang_cmd env.lang) = true := by
    intro attempts kvs
    have h0 := waterfall_trace_forwarded env body.model body.stream
      (pre ++ [⟨m.role, m.content ++ lang_cmd env.lang⟩]) attempts kvs [] rfl
    simpa [List.getLast?_concat] using h0
  simp only [chatPipeline]
  split
  · simp
  · rw [h1]
    exact hall _ _

def c7Env : PipelineEnv :=
  ⟨emptyKvs, "2026-10-12", [("groq", mkDesc "groq" "openai")], "SIMPLE", "Italian",
    fun _ => AttemptResult.succeeds ⟨"up-model", "ok", [], none⟩, "AUTO", none⟩

def c7Body : RequestBody := ⟨[⟨"user", "ciao"⟩], false, "qwen-max"⟩

/-- Witness for C7 at a concrete request: a single user message gets the
Italian directive appended, and the attempted provider is handed it. -/
theorem C7_language_directive_witness :
    c7Body.messages = [] ++ [(⟨"user", "ciao"⟩ : Message)] ∧
    (appendToLast c7Body.messages (lang_cmd c7Env.lang) =
        some ([] ++ [⟨"user", "ciao" ++ lang_cmd c7Env.lang⟩]) ∧
      (chatPipeline c7Env c7Body).2.2.all
        (fun e => e.forwardedLast == "ciao" ++ lang_cmd c7Env.lang) = true) :=
  ⟨rfl, C7_language_directive c7Env c7Body [] ⟨"user", "ciao"⟩ rfl⟩

/-- Counterexample for C7 as stated: when the last message of the list is an
assistant message, the directive is appended to *it* (main.py line 220 indexes
`full_messages[-1]`), and the last *user* message keeps its original content,
which does not contain the directive at all. -/
theorem C7_last_user_message_counterexample :
    appendToLast [⟨"user", "ciao"⟩, ⟨"assistant", "ok"⟩] (lang_cmd "Italian") =
      some [⟨"user", "ciao"⟩, ⟨"assistant", "ok" ++ lang_cmd "Italian"⟩] ∧
    subOccurS (lang_cmd "Italian") "ciao" = false :=
  ⟨rfl, rfl⟩

/-- C9: when a provider attempt raises (which for the waterfall's `except`
means: any non-(google-streaming) adapter call erroring), a 60-second TTL
cooldown key with the non-empty value BLOCKED is recorded exactly when the
error text contains 429 or case-insensitively quota, the store is untouched
otherwise, and in both cases the loop moves on to the remaining attempts. -/
theorem C9_failure_cooldown_iff_quota (env : PipelineEnv) (rm : String) (st : Bool)
    (msgs : List Message) (p_id : String) (p : ProviderDesc)
    (rest : List (Option String)) (kvs : Kvs) (trace : List AttemptRecord)
    (msg : String)
    (hp : env.providers.lookup p_id = some p)
    (hb : (p.ptype == "google") = false ∨ st = false)
    (ha : env.attempt p_id = AttemptResult.raises msg) :
    waterfall env rm st msgs (some p_id :: rest) kvs trace =
      waterfall env rm st msgs rest
        (if quotaErrorCond msg then set_cooldown kvs p_id else kvs)
        (trace ++ [⟨p_id, ((msgs.getLast?).map Message.content).getD ""⟩]) ∧
    (quotaErrorCond msg = true →
      kvGetE (set_cooldown kvs p_id) ("cooldown:" ++ p_id) =
        some ⟨"BLOCKED", some 60⟩) ∧
    (quotaErrorCond msg = false →
      (if quotaErrorCond msg then set_cooldown kvs p_id else kvs) = kvs) := by
  refine ⟨?_, fun _ => kvGetE_set_self kvs _ _, fun hq => by simp [hq]⟩
  rcases hb with hb | hb
  · simp [waterfall, hp, hb, ha]
  · subst hb
    by_cases hG : (p.ptype == "google") = true
    · simp [waterfall, hp, hG, ha]
    · rw [Bool.not_eq_true] at hG
      simp [waterfall, hp, hG, ha]

def c9Env : PipelineEnv :=
  ⟨emptyKvs, "2026-10-12", [("groq", mkDesc "groq" "openai")], "SIMPLE", "Italian",
    fun _ => AttemptResult.raises "Error code: 429 - rate limited", "AUTO", none⟩

/-- Witness for C9 at a concrete failure: a groq attempt raising a 429 error
text sets the 60-second BLOCKED cooldown and the loop continues. -/
theorem C9_failure_cooldown_iff_quota_witness :
    c9Env.providers.lookup "groq" = some (mkDesc "groq" "openai") ∧
    ((mkDesc "groq" "openai").ptype == "google") = false ∧
    c9Env.attempt "groq" = AttemptResult.raises "Error code: 429 - rate limited" ∧
    (waterfall c9Env "qwen-max" false [⟨"user", "hi"⟩] [some "groq"] emptyKvs [] =
      waterfall c9Env "qwen-max" false [⟨"user", "hi"⟩] []
        (if quotaErrorCond "Error code: 429 - rate limited" then
          set_cooldown emptyKvs "groq" else emptyKvs)
        ([] ++ [⟨"groq", ((([⟨"user", "hi"⟩] : List Message).getLast?).map
          Message.content).getD ""⟩]) ∧
      (quotaErrorCond "Error code: 429 - rate limited" = true →
        kvGetE (set_cooldown emptyKvs "groq") ("cooldown:" ++ "groq") =
          some ⟨"BLOCKED", some 60⟩) ∧
      (quotaErrorCond "Error code: 429 - rate limited" = false →
        (if quotaErrorCond "Error code: 429 - rate limited" then
          set_cooldown emptyKvs "groq" else emptyKvs) = emptyKvs)) :=
  ⟨rfl, rfl, rfl,
    C9_failure_cooldown_iff_quota c9Env "qwen-max" false [⟨"user", "hi"⟩]
      "groq" (mkDesc "groq" "openai") [] emptyKvs []
      "Error code: 429 - rate limited" rfl (Or.inl rfl) rfl⟩

/-! ### Mid-stream failure lemmas -/

lemma consumeOpenai_fail (m : String) (cs : List OChunk) (e : String) :
    consumeOpenai m cs (some e) =
      (cs.map (fun c => SSEFrame.data m c.rest), some e) := by
  induction cs with
  | nil => rfl
  | cons c cs ih => simp [consumeOpenai, ih]

lemma consumeGoogle_fail (m : String) (ts : List String) (e : String) :
    consumeGoogle m ts (some e) =
      (ts.map (fun t => SSEFrame.data m t), some e) := by
  induction ts with
  | nil => rfl
  | cons t ts ih => simp [consumeGoogle, ih]

lemma cooldown_key_ne_stats_key (q p : String) :
    ("cooldown:" ++ q) ≠ ("stats:" ++ p ++ ":requests") := by
  intro h
  have h2 : ("cooldown:" ++ q).data = ("stats:" ++ p ++ ":requests").data := by rw [h]
  rw [String.data_append, String.data_append, String.data_append] at h2
  have h3 : ("cooldown:".data ++ q.data).head? =
      (("stats:".data ++ p.data) ++ ":requests".data).head? := by rw [h2]
  have hc : ("cooldown:".data ++ q.data).head? = some 'c' := rfl
  have hs : (("stats:".data ++ p.data) ++ ":requests".data).head? = some 's' := rfl
  rw [hc, hs] at h3
  exact absurd h3 (by decide)

/-- C10: on a streaming request (either adapter kind), the success counter is
incremented and the unconsumed streaming response is what the waterfall
returns — before any chunk is pulled — so an upstream iterator that fails
mid-stream (here after `up.chunks`) changes nothing in the waterfall result:
no fallback to `rest`, no cooldown key, the stats counter still bumped; the
consumer then receives the already-produced data frames, no DONE frame, and
the error escapes outside the waterfall's error handling. -/
theorem C10_midstream_failure_outside_waterfall (env : PipelineEnv)
    (rm : String) (msgs : List Message) (p_id : String) (p : ProviderDesc)
    (rest : List (Option String)) (kvs : Kvs) (trace : List AttemptRecord)
    (up : UpstreamData) (err : String)
    (hp : env.providers.lookup p_id = some p)
    (ha : env.attempt p_id = AttemptResult.succeeds up)
    (hf : up.chunkFail = some err) :
    waterfall env rm true msgs (some p_id :: rest) kvs trace =
      (log_success kvs p_id,
        trace ++ [⟨p_id, ((msgs.getLast?).map Message.content).getD ""⟩],
        some (if p.ptype == "google" then
            ClientResponse.streamingGoogle rm none (up.chunks.map OChunk.rest)
              (some err)
          else ClientResponse.streamingOpenai rm up.chunks (some err))) ∧
    (∀ q : String, kvGetE (log_success kvs p_id) ("cooldown:" ++ q) =
      kvGetE kvs ("cooldown:" ++ q)) ∧
    kvGet (log_success kvs p_id) ("stats:" ++ p_id ++ ":requests") =
      some (toString
        (((kvGet kvs ("stats:" ++ p_id ++ ":requests")).bind String.toNat?).getD 0
          + 1)) ∧
    (consumeOpenai rm up.chunks (some err)).1.countP SSEFrame.isDone = 0 ∧
    (consumeOpenai rm up.chunks (some err)).2 = some err ∧
    (consumeGoogle rm (up.chunks.map OChunk.rest) (some err)).1.countP
      SSEFrame.isDone = 0 ∧
    (consumeGoogle rm (up.chunks.map OChunk.rest) (some err)).2 = some err := by
  refine ⟨?_, ?_, ?_, ?_, ?_, ?_, ?_⟩
  · by_cases hG : (p.ptype == "google") = true
    · simp [waterfall, hp, hG, ha, hf]
    · rw [Bool.not_eq_true] at hG
      simp [waterfall, hp, hG, ha, hf]
  · intro q
    unfold log_success
    exact kvIncr_get_other kvs _ _ (cooldown_key_ne_stats_key q p_id)
  · unfold log_success kvIncr
    cases hE : kvGetE kvs ("stats:" ++ p_id ++ ":requests") with
    | none => simp [kvGet, hE, kvGetE_set_self]; rfl
    | some e => simp [kvGet, hE, kvGetE_set_self]
  · rw [consumeOpenai_fail]
    simp [List.countP_map, Function.comp, SSEFrame.isDone, List.countP_eq_zero]
  · rw [consumeOpenai_fail]
  · rw [consumeGoogle_fail]
    simp [List.countP_map, Function.comp, SSEFrame.isDone, List.countP_eq_zero]
  · rw [consumeGoogle_fail]

def c10Up : UpstreamData := ⟨"up-m", "txt", [⟨"up-m", "c1"⟩], some "boom"⟩

def c10Env : PipelineEnv :=
  ⟨emptyKvs, "2026-10-12", [("groq", mkDesc "groq" "openai")], "SIMPLE", "Italian",
    fun _ => AttemptResult.succeeds c10Up, "AUTO", none⟩

/-- Witness for C10 at a concrete stream that dies after one chunk: the groq
attempt is counted as a success, no cooldown appears, no fallback happens, and
consumption yields the one data frame, no DONE, and the escaped error. -/
theorem C10_midstream_failure_witness :
    c10Env.providers.lookup "groq" = some (mkDesc "groq" "openai") ∧
    c10Env.attempt "groq" = AttemptResult.succeeds c10Up ∧
    c10Up.chunkFail = some "boom" ∧
    (waterfall c10Env "qwen-max" true [⟨"user", "hi"⟩] [some "groq"] emptyKvs [] =
      (log_success emptyKvs "groq",
        [] ++ [⟨"groq", ((([⟨"user", "hi"⟩] : List Message).getLast?).map
          Message.content).getD ""⟩],
        some (if (mkDesc "groq" "openai").ptype == "google" then
            ClientResponse.streamingGoogle "qwen-max" none
              (c10Up.chunks.map OChunk.rest) (some "boom")
          else ClientResponse.streamingOpenai "qwen-max" c10Up.chunks
            (some "boom"))) ∧
      (∀ q : String, kvGetE (log_success emptyKvs "groq") ("cooldown:" ++ q) =
        kvGetE emptyKvs ("cooldown:" ++ q)) ∧
      kvGet (log_success emptyKvs "groq") ("stats:" ++ "groq" ++ ":requests") =
        some (toString
          (((kvGet emptyKvs ("stats:" ++ "groq" ++ ":requests")).bind
            String.toNat?).getD 0 + 1)) ∧
      (consumeOpenai "qwen-max" c10Up.chunks (some "boom")).1.countP
        SSEFrame.isDone = 0 ∧
      (consumeOpenai "qwen-max" c10Up.chunks (some "boom")).2 = some "boom" ∧
      (consumeGoogle "qwen-max" (c10Up.chunks.map OChunk.rest)
        (some "boom")).1.countP SSEFrame.isDone = 0 ∧
      (consumeGoogle "qwen-max" (c10Up.chunks.map OChunk.rest)
        (some "boom")).2 = some "boom") :=
  ⟨rfl, rfl, rfl,
    C10_midstream_failure_outside_waterfall c10Env "qwen-max" [⟨"user", "hi"⟩]
      "groq" (mkDesc "groq" "openai") [] emptyKvs [] c10Up "boom" rfl rfl rfl⟩
